import Mathlib

/-!
Shallow embedding of the nexus prediction core and a verification of its
specification claims.

Numbers are modelled as exact rationals (`ℚ`).  JavaScript arithmetic on
finite doubles is mirrored by the corresponding exact operation; the places
where JavaScript produces a non-finite value (division by zero in
`calculateCCI` and `calculateStochastic`) are modelled with `Option ℚ`,
`none` standing for `NaN`/`Infinity`.  The SQL `NULL` of the predictions
table is modelled with `Option`, and the relational coercion JavaScript applies to
`null` to the number `0` is made explicit where the source compares a
possibly-`NULL` column.

Source loops of the form `for (i = period - 1; i < xs.length; i++)` acting
on `xs.slice(i - period + 1, i + 1)` are embedded through `windows period
xs`, the list of all contiguous length-`period` slices in order.
-/

namespace Nexus

/-- One OHLC bar as consumed by the indicator functions (only the fields the
embedded functions read: `high`, `low`, `close`, `volume`). -/
structure OHLCBar where
  high : ℚ
  low : ℚ
  close : ℚ
  volume : ℚ
deriving DecidableEq

/-- JavaScript division, with `none` for the non-finite result (`NaN` or
`±Infinity`) produced when the divisor is `0`. -/
def jsDiv (a b : ℚ) : Option ℚ :=
  if b = 0 then none else some (a / b)

/-- All contiguous length-`period` slices of a list, in order: the slices
`xs.slice(i - period + 1, i + 1)` visited by the indicator loops. -/
def windows {α : Type} (period : ℕ) : List α → List (List α)
  | [] => []
  | x :: xs =>
      if period ≤ xs.length + 1 then (x :: xs).take period :: windows period xs
      else []

/-- JavaScript `Math.max` over a nonempty list (the empty case is unreachable in the
embedded call sites). -/
def listMax : List ℚ → ℚ
  | [] => 0
  | x :: xs => xs.foldl max x

/-- JavaScript `Math.min` over a nonempty list (the empty case is unreachable in the
embedded call sites). -/
def listMin : List ℚ → ℚ
  | [] => 0
  | x :: xs => xs.foldl min x

/-- Function `calculateSMA` from `technicalIndicators.js`: each sliding window of
`period` prices mapped to its arithmetic mean; `null` when the input is
shorter than the period. -/
def calculateSMA (prices : List ℚ) (period : ℕ) : Option (List ℚ) :=
  if prices.length < period then none
  else some ((windows period prices).map (fun w => w.sum / (period : ℚ)))

/-- The EMA recurrence `ema[i] = price[i]*k + ema[i-1]*(1-k)` unrolled over
the tail of the price list. -/
def emaFrom (k : ℚ) (prev : ℚ) : List ℚ → List ℚ
  | [] => []
  | x :: xs =>
      let e := x * k + prev * (1 - k)
      e :: emaFrom k e xs

/-- Function `calculateEMA` from `technicalIndicators.js`: seeded at the first input
value, then the recurrence over the rest of the series, so the output has
the full input length; `null` when the input is shorter than the period. -/
def calculateEMA (prices : List ℚ) (period : ℕ) : Option (List ℚ) :=
  if prices.length < period then none
  else
    match prices with
    | [] => some []
    | p :: ps => some (p :: emaFrom (2 / ((period : ℚ) + 1)) p ps)

/-- The per-step loop of `calculateRSI`: push the RSI derived from the
current Wilder averages (with the `RS = 100` convention when `avgLoss = 0`),
then fold the next change into the averages. -/
def rsiLoop (period : ℕ) (avgGain avgLoss : ℚ) : List ℚ → List ℚ
  | [] => []
  | c :: cs =>
      let rs := if avgLoss = 0 then 100 else avgGain / avgLoss
      let r := 100 - 100 / (1 + rs)
      let gain := if c > 0 then c else 0
      let loss := if c < 0 then |c| else 0
      r :: rsiLoop period ((avgGain * ((period : ℚ) - 1) + gain) / (period : ℚ))
                          ((avgLoss * ((period : ℚ) - 1) + loss) / (period : ℚ)) cs

/-- Function `calculateRSI` from `technicalIndicators.js`: `null` when fewer than
`period + 1` prices; otherwise seed the Wilder averages from the first
`period` price changes and run the loop over the remaining changes. -/
def calculateRSI (prices : List ℚ) (period : ℕ) : Option (List ℚ) :=
  if prices.length < period + 1 then none
  else
    let changes := List.zipWith (fun a b => a - b) (prices.drop 1) prices
    let seed := changes.take period
    let avgGain := (seed.map (fun c => if c > 0 then c else 0)).sum / (period : ℚ)
    let avgLoss := (seed.map (fun c => if c > 0 then 0 else |c|)).sum / (period : ℚ)
    some (rsiLoop period avgGain avgLoss (changes.drop period))

/-- Result record of `calculateMACD`. -/
structure MACDResult where
  macd : List ℚ
  signalLine : Option (List ℚ)
  histogram : List ℚ
deriving DecidableEq

/-- Function `calculateMACD` from `technicalIndicators.js`: MACD line indexed over
the length of the fast EMA, signal line an EMA of the MACD line, histogram
aligned through the index offset `macd.length - signal.length`. -/
def calculateMACD (prices : List ℚ) (fastPeriod slowPeriod signalPeriod : ℕ) :
    Option MACDResult :=
  match calculateEMA prices fastPeriod, calculateEMA prices slowPeriod with
  | some fastEMA, some slowEMA =>
      let macdLine := (List.range fastEMA.length).map
        (fun i => fastEMA.getD i 0 - slowEMA.getD i 0)
      let signalLine := calculateEMA macdLine signalPeriod
      let histogram :=
        match signalLine with
        | none => []
        | some s => (List.range s.length).map
            (fun i => macdLine.getD (i + (macdLine.length - s.length)) 0 - s.getD i 0)
      some ⟨macdLine, signalLine, histogram⟩
  | _, _ => none

/-- Function `calculateCCI` from `technicalIndicators.js`: typical price `(H+L+C)/3`,
then for each window its SMA and mean absolute deviation, and the quotient
`(tp − sma) / (0.015 · meanDeviation)` — divided without a zero-deviation
guard, hence `Option ℚ` values. -/
def calculateCCI (ohlcData : List OHLCBar) (period : ℕ) : Option (List (Option ℚ)) :=
  if ohlcData.length < period then none
  else
    let typicalPrices := ohlcData.map (fun d => (d.high + d.low + d.close) / 3)
    some ((windows period typicalPrices).map (fun w =>
      let sma := w.sum / (period : ℚ)
      let meanDeviation := (w.map (fun tp => |tp - sma|)).sum / (period : ℚ)
      jsDiv (w.getLastD 0 - sma) ((3 / 200) * meanDeviation)))

/-- Sum of a list of JavaScript numbers: `none` (non-finite) absorbs. -/
def sumOpt : List (Option ℚ) → Option ℚ
  | [] => some 0
  | a :: as =>
      match a with
      | none => none
      | some x => (sumOpt as).map (fun y => x + y)

/-- Variant of `calculateSMA` applied to a series that may already contain non-finite
values (`NaN` propagates through the window sums). -/
def calculateSMAOpt (values : List (Option ℚ)) (period : ℕ) :
    Option (List (Option ℚ)) :=
  if values.length < period then none
  else some ((windows period values).map (fun w =>
    (sumOpt w).map (fun s => s / (period : ℚ))))

/-- Function `calculateStochastic` from `technicalIndicators.js`: raw `%K` is
`(close − lowestLow) / (highestHigh − lowestLow) × 100` computed without a
zero-range guard, then SMA-smoothed twice.  Returns the `{k, d}` record,
or `null` when the input is shorter than the period. -/
def calculateStochastic (ohlcData : List OHLCBar) (period smoothK smoothD : ℕ) :
    Option (Option (List (Option ℚ)) × Option (List (Option ℚ))) :=
  if ohlcData.length < period then none
  else
    let percentK := (windows period ohlcData).map (fun w =>
      let high := listMax (w.map OHLCBar.high)
      let low := listMin (w.map OHLCBar.low)
      let close := (w.map OHLCBar.close).getLastD 0
      (jsDiv (close - low) (high - low)).map (fun q => q * 100))
    let smoothedK := calculateSMAOpt percentK smoothK
    let percentD :=
      match smoothedK with
      | some sk => calculateSMAOpt sk smoothD
      | none => none
    some (smoothedK, percentD)

/-- The local-minimum scan of `calculateSupportResistance`: for every index
`i` with two neighbours on each side, keep `lows[i]` when it is strictly
below `lows[i∓1]` and `lows[i∓2]`.  The five-element window `[a,b,c,d,e]`
is centred at `c`. -/
def localMinima : List ℚ → List ℚ
  | a :: b :: c :: d :: e :: rest =>
      (if c < b ∧ c < a ∧ c < d ∧ c < e then [c] else []) ++
        localMinima (b :: c :: d :: e :: rest)
  | _ => []

/-- The local-maximum scan of `calculateSupportResistance`, dual to
`localMinima`. -/
def localMaxima : List ℚ → List ℚ
  | a :: b :: c :: d :: e :: rest =>
      (if c > b ∧ c > a ∧ c > d ∧ c > e then [c] else []) ++
        localMaxima (b :: c :: d :: e :: rest)
  | _ => []

/-- The clustering walk of `clusterLevels`: append the next sorted level to
the current cluster when its relative distance to the previous level is
below 2%, otherwise flush the cluster and start a new one. -/
def clusterGo (prev : ℚ) (cluster : List ℚ) : List ℚ → List (List ℚ)
  | [] => [cluster]
  | x :: xs =>
      if (x - prev) / prev < 1 / 50 then clusterGo x (cluster ++ [x]) xs
      else cluster :: clusterGo x [x] xs

/-- Helper `clusterLevels` of `calculateSupportResistance`: sort ascending, merge
consecutive levels whose relative distance is below 2%, and average each
cluster. -/
def clusterLevels (levels : List ℚ) : List ℚ :=
  match List.insertionSort (· ≤ ·) levels with
  | [] => []
  | s :: ss => (clusterGo s [s] ss).map (fun c => c.sum / (c.length : ℚ))

/-- JavaScript `xs.slice(-n)`: the last `n` elements. -/
def lastN (n : ℕ) (l : List ℚ) : List ℚ := l.drop (l.length - n)

/-- Result record of `calculateSupportResistance`. -/
structure SupportResistance where
  resistance : List ℚ
  support : List ℚ
deriving DecidableEq

/-- Function `calculateSupportResistance` from `technicalIndicators.js`: local
extrema of the last `lookback` bars, clustered; the returned resistance is
`clustered.slice(-3)` (the highest three) and the returned support is
`clustered.slice(0, 3)` (the lowest three). -/
def calculateSupportResistance (ohlcData : List OHLCBar) (lookback : ℕ) :
    Option SupportResistance :=
  if ohlcData.length < lookback then none
  else
    let recentData := ohlcData.drop (ohlcData.length - lookback)
    let resistanceLevels := localMaxima (recentData.map OHLCBar.high)
    let supportLevels := localMinima (recentData.map OHLCBar.low)
    some ⟨lastN 3 (clusterLevels resistanceLevels), (clusterLevels supportLevels).take 3⟩

/-- The clamp `Math.max(-1, Math.min(1, score))` applied per analyzer of
`engine.js`. -/
def clampScore (score : ℚ) : ℚ := max (-1) (min 1 score)

/-- A category analyzer result: `{score, signals, strength}`.  The signal
strings elide the numeric interpolations of the source messages. -/
structure SignalScore where
  score : ℚ
  signals : List String
  strength : ℚ
deriving DecidableEq

/-- The `reduce` over levels in `analyzeSupportResistance`: nearest level to
the current price, starting from `levels[0]`; `none` models the
`undefined` produced by `[].reduce(f, undefined)` on an empty list. -/
def nearestLevel (levels : List ℚ) (currentPrice : ℚ) : Option ℚ :=
  match levels with
  | [] => none
  | l0 :: _ => some (levels.foldl
      (fun prev curr => if |curr - currentPrice| < |prev - currentPrice| then curr else prev) l0)

/-- Function `analyzeSupportResistance` from `engine.js`.  When the indicator bundle
is absent the block is skipped and score 0 is returned.  When it is present
the source unconditionally executes
`nearestSupport.toFixed(2)`/`nearestResistance.toFixed(2)` while building
the last signal string; if either list is empty, that is a `TypeError` on
`undefined`, modelled here by `none`. -/
def analyzeSupportResistance (sr : Option SupportResistance) (currentPrice : ℚ) :
    Option SignalScore :=
  match sr with
  | none => some ⟨clampScore 0, [], |clampScore 0|⟩
  | some levels =>
      match nearestLevel levels.support currentPrice,
            nearestLevel levels.resistance currentPrice with
      | some nearestSupport, some nearestResistance =>
          let distanceToSupport := (currentPrice - nearestSupport) / currentPrice * 100
          let distanceToResistance := (nearestResistance - currentPrice) / currentPrice * 100
          let s1 : ℚ := if distanceToSupport < 2 then 0 + 3 / 10 else 0
          let s2 : ℚ := if distanceToResistance < 2 then s1 - 3 / 10 else s1
          let score := clampScore s2
          some ⟨score,
            (if distanceToSupport < 2 then ["Near support level"] else []) ++
              (if distanceToResistance < 2 then ["Near resistance level"] else []) ++
              ["Support and resistance levels"],
            |score|⟩
      | _, _ => none

/-- The volatility analyzer result: `{score, volatilityLevel, strength}`
(the signal strings are omitted; no claim depends on them). -/
structure VolatilitySignal where
  score : ℚ
  volatilityLevel : String
  strength : ℚ
deriving DecidableEq

/-- The regime classification of `analyzeVolatility`: thresholds 100, 70,
40 on the latest historical-volatility value; `medium` when the indicator
is absent. -/
def classifyVolatility (latestVolatility : Option ℚ) : String :=
  match latestVolatility with
  | none => "medium"
  | some v =>
      if v > 100 then "very high"
      else if v > 70 then "high"
      else if v > 40 then "medium"
      else "low"

/-- Function `analyzeVolatility` from `engine.js`: its `score` variable is
initialised to 0 and never assigned again, so the analyzer always
contributes score 0. -/
def analyzeVolatility (latestVolatility : Option ℚ) : VolatilitySignal :=
  ⟨0, classifyVolatility latestVolatility, 0⟩

/-- The composite aggregation of `generatePrediction`: weighted sum with
the `indicatorWeights` table (trend .25, momentum .20, volatility .15,
volume .15, support_resistance .15). -/
def compositeScoreOf (trend momentum volatility volume supportResistance : ℚ) : ℚ :=
  trend * (25 / 100) + momentum * (20 / 100) + volatility * (15 / 100) +
    volume * (15 / 100) + supportResistance * (15 / 100)

/-- The `volatilityMultiplier` lookup of
`generateProbabilityDistribution`, with the `|| 0.85` default for an
unclassified regime label. -/
def volatilityMultiplier (level : String) : ℚ :=
  if level = "very high" then 1 / 2
  else if level = "high" then 7 / 10
  else if level = "medium" then 17 / 20
  else if level = "low" then 19 / 20
  else 17 / 20

/-- The `volatilityValues` expected-move lookup of
`generateProbabilityDistribution`, with the `|| 0.07` default. -/
def expectedMoveOf (level : String) : ℚ :=
  if level = "very high" then 15 / 100
  else if level = "high" then 10 / 100
  else if level = "medium" then 7 / 100
  else if level = "low" then 4 / 100
  else 7 / 100

/-- Function `getConfidenceLabel` from `engine.js` (thresholds on the 0–1
multiplier). -/
def getConfidenceLabel (confidence : ℚ) : String :=
  if confidence ≥ 85 / 100 then "Very High"
  else if confidence ≥ 70 / 100 then "High"
  else if confidence ≥ 50 / 100 then "Medium"
  else if confidence ≥ 30 / 100 then "Low"
  else "Very Low"

/-- One horizon-specific forecast of `generateProbabilityDistribution`
(`expectedRange` flattened into `rangeLow`/`rangeHigh`). -/
structure Forecast where
  direction : String
  probability : ℚ
  confidence : ℚ
  rangeLow : ℚ
  rangeHigh : ℚ
  mostLikely : ℚ
deriving DecidableEq

/-- The record returned by `generateProbabilityDistribution`. -/
structure PredictionDist where
  shortTerm : Forecast
  mediumTerm : Forecast
  compositeScore : ℚ
  confidenceLevel : String
deriving DecidableEq

/-- Function `generateProbabilityDistribution` from `engine.js`, taking the
`volatilityLevel` field of the volatility signal it inspects. -/
def generateProbabilityDistribution (compositeScore : ℚ) (volatilityLevel : String)
    (currentPrice : ℚ) : PredictionDist :=
  let baseConfidence := volatilityMultiplier volatilityLevel
  let normalizedScore := compositeScore
  let direction :=
    if |normalizedScore| > 1 / 2 then
      (if normalizedScore > 0 then "bullish" else "bearish")
    else if |normalizedScore| > 1 / 4 then
      (if normalizedScore > 0 then "slightly bullish" else "slightly bearish")
    else "neutral"
  let probability :=
    if |normalizedScore| > 1 / 2 then |normalizedScore|
    else if |normalizedScore| > 1 / 4 then 1 / 2 + |normalizedScore| / 2
    else (1 : ℚ) / 2
  let expectedMove := expectedMoveOf volatilityLevel
  let shortTerm : Forecast :=
    ⟨direction, probability * 100, baseConfidence * 100,
      currentPrice * (1 - expectedMove * (1 / 2)),
      currentPrice * (1 + expectedMove * (1 / 2)),
      currentPrice * (1 + normalizedScore * expectedMove * (3 / 10))⟩
  let mediumTerm : Forecast :=
    ⟨direction, probability * (85 / 100) * 100, baseConfidence * (8 / 10) * 100,
      currentPrice * (1 - expectedMove * (3 / 2)),
      currentPrice * (1 + expectedMove * (3 / 2)),
      currentPrice * (1 + normalizedScore * expectedMove * (7 / 10))⟩
  ⟨shortTerm, mediumTerm, normalizedScore, getConfidenceLabel baseConfidence⟩

end Nexus

namespace Nexus

end Nexus

namespace Nexus

/-- A strictly monotone 50-bar series: highs and lows strictly increasing,
so the ±2-bar scans find no local extrema. -/
def monoBars : List OHLCBar :=
  [⟨100, 50, 75, 0⟩, ⟨101, 51, 76, 0⟩, ⟨102, 52, 77, 0⟩, ⟨103, 53, 78, 0⟩, ⟨104, 54, 79, 0⟩, ⟨105, 55, 80, 0⟩, ⟨106, 56, 81, 0⟩, ⟨107, 57, 82, 0⟩, ⟨108, 58, 83, 0⟩, ⟨109, 59, 84, 0⟩, ⟨110, 60, 85, 0⟩, ⟨111, 61, 86, 0⟩, ⟨112, 62, 87, 0⟩, ⟨113, 63, 88, 0⟩, ⟨114, 64, 89, 0⟩, ⟨115, 65, 90, 0⟩, ⟨116, 66, 91, 0⟩, ⟨117, 67, 92, 0⟩, ⟨118, 68, 93, 0⟩, ⟨119, 69, 94, 0⟩, ⟨120, 70, 95, 0⟩, ⟨121, 71, 96, 0⟩, ⟨122, 72, 97, 0⟩, ⟨123, 73, 98, 0⟩, ⟨124, 74, 99, 0⟩, ⟨125, 75, 100, 0⟩, ⟨126, 76, 101, 0⟩, ⟨127, 77, 102, 0⟩, ⟨128, 78, 103, 0⟩, ⟨129, 79, 104, 0⟩, ⟨130, 80, 105, 0⟩, ⟨131, 81, 106, 0⟩, ⟨132, 82, 107, 0⟩, ⟨133, 83, 108, 0⟩, ⟨134, 84, 109, 0⟩, ⟨135, 85, 110, 0⟩, ⟨136, 86, 111, 0⟩, ⟨137, 87, 112, 0⟩, ⟨138, 88, 113, 0⟩, ⟨139, 89, 114, 0⟩, ⟨140, 90, 115, 0⟩, ⟨141, 91, 116, 0⟩, ⟨142, 92, 117, 0⟩, ⟨143, 93, 118, 0⟩, ⟨144, 94, 119, 0⟩, ⟨145, 95, 120, 0⟩, ⟨146, 96, 121, 0⟩, ⟨147, 97, 122, 0⟩, ⟨148, 98, 123, 0⟩, ⟨149, 99, 124, 0⟩]

/-- A 50-bar series whose low dips produce exactly the raw support levels
10, 20, 30, 40 (pairwise more than 2% apart), constant highs (no
resistance), and final close 100. -/
def fourSupportBars : List OHLCBar :=
  [⟨200, 100, 100, 0⟩, ⟨200, 100, 100, 0⟩, ⟨200, 100, 100, 0⟩, ⟨200, 100, 100, 0⟩, ⟨200, 100, 100, 0⟩, ⟨200, 10, 100, 0⟩, ⟨200, 100, 100, 0⟩, ⟨200, 100, 100, 0⟩, ⟨200, 100, 100, 0⟩, ⟨200, 100, 100, 0⟩, ⟨200, 20, 100, 0⟩, ⟨200, 100, 100, 0⟩, ⟨200, 100, 100, 0⟩, ⟨200, 100, 100, 0⟩, ⟨200, 100, 100, 0⟩, ⟨200, 30, 100, 0⟩, ⟨200, 100, 100, 0⟩, ⟨200, 100, 100, 0⟩, ⟨200, 100, 100, 0⟩, ⟨200, 100, 100, 0⟩, ⟨200, 40, 100, 0⟩, ⟨200, 100, 100, 0⟩, ⟨200, 100, 100, 0⟩, ⟨200, 100, 100, 0⟩, ⟨200, 100, 100, 0⟩, ⟨200, 100, 100, 0⟩, ⟨200, 100, 100, 0⟩, ⟨200, 100, 100, 0⟩, ⟨200, 100, 100, 0⟩, ⟨200, 100, 100, 0⟩, ⟨200, 100, 100, 0⟩, ⟨200, 100, 100, 0⟩, ⟨200, 100, 100, 0⟩, ⟨200, 100, 100, 0⟩, ⟨200, 100, 100, 0⟩, ⟨200, 100, 100, 0⟩, ⟨200, 100, 100, 0⟩, ⟨200, 100, 100, 0⟩, ⟨200, 100, 100, 0⟩, ⟨200, 100, 100, 0⟩, ⟨200, 100, 100, 0⟩, ⟨200, 100, 100, 0⟩, ⟨200, 100, 100, 0⟩, ⟨200, 100, 100, 0⟩, ⟨200, 100, 100, 0⟩, ⟨200, 100, 100, 0⟩, ⟨200, 100, 100, 0⟩, ⟨200, 100, 100, 0⟩, ⟨200, 100, 100, 0⟩, ⟨200, 100, 100, 0⟩]

end Nexus

namespace Nexus

/-- One row of the `predictions` table (the columns the evaluator reads or
writes).  A pending row has `actual_direction`, `actual_price`,
`was_accurate` and `evaluated_at` all `NULL`. -/
structure PredRow where
  id : ℕ
  crypto_id : String
  created_at : ℤ
  timeframe : ℤ
  predicted_direction : String
  predicted_price_range_low : ℚ
  predicted_price_range_high : ℚ
  actual_direction : Option String
  actual_price : Option ℚ
  was_accurate : Option ℤ
  evaluated_at : Option ℤ
deriving DecidableEq

/-- The database state the accuracy evaluator touches: the predictions
table, the cryptocurrencies table projected to `(id, current_price)`, and
the price-history table projected to `(crypto_id, timestamp, price)`. -/
structure DB where
  predictions : List PredRow
  cryptocurrencies : List (String × ℚ)
  price_history : List (String × ℤ × ℚ)
deriving DecidableEq

/-- The selection query of `evaluatePredictions`:
`WHERE p.evaluated_at IS NULL AND p.created_at + (p.timeframe * 1000) <= now`,
joined against `cryptocurrencies` for `current_price`. -/
def queryPending (db : DB) (now : ℤ) : List (PredRow × ℚ) :=
  db.predictions.filterMap (fun p =>
    match List.lookup p.crypto_id db.cryptocurrencies with
    | none => none
    | some current_price =>
        if p.evaluated_at = none ∧ p.created_at + p.timeframe * 1000 ≤ now then
          some (p, current_price)
        else none)

/-- The reference-price query of `evaluatePredictions`: the price of the
latest `price_history` row at-or-before the `created_at` of the prediction. -/
def originalPrice (db : DB) (p : PredRow) : Option ℚ :=
  let cands := db.price_history.filter
    (fun r => r.1 == p.crypto_id && decide (r.2.1 ≤ p.created_at))
  (cands.foldl (fun acc r =>
    match acc with
    | none => some (r.2.1, r.2.2)
    | some (t0, pr0) => if t0 < r.2.1 then some (r.2.1, r.2.2) else some (t0, pr0))
    none).map Prod.snd

/-- The relational coercion of JavaScript: in `a > b`, `a < b`, `a >= b`,
`a <= b` a `null` operand is converted to the number `0`. -/
def jsNumOfNull (o : Option ℚ) : ℚ := o.getD 0

/-- The per-row body of the `evaluatePredictions` loop.  Note that the
source derives `actualDirection` and `wasAccurate` from
`pred.actual_price` — the still-`NULL` column of the pending row — while
storing `pred.current_price` (the join value) into `actual_price`. -/
def evaluateOne (db : DB) (now : ℤ) (p : PredRow) (current_price : ℚ) : PredRow :=
  match originalPrice db p with
  | none => p
  | some orig =>
      let ap := jsNumOfNull p.actual_price
      let actualDirection :=
        if ap > orig then "up" else if ap < orig then "down" else "neutral"
      let wasAccurate :=
        (actualDirection == p.predicted_direction)
          && decide (ap ≥ p.predicted_price_range_low)
          && decide (ap ≤ p.predicted_price_range_high)
      { p with
          actual_direction := some actualDirection
          actual_price := some current_price
          was_accurate := some (if wasAccurate then 1 else 0)
          evaluated_at := some now }

/-- Function `evaluatePredictions` from the database module: select the pending rows
whose (mis-scaled) deadline has passed, update each row that has a
reference price, and return the new state together with the number of
selected rows. -/
def evaluatePredictions (db : DB) (now : ℤ) : DB × ℕ :=
  let selected := queryPending db now
  let updated := selected.map (fun pc => evaluateOne db now pc.1 pc.2)
  let predictions := db.predictions.map (fun q =>
    match updated.find? (fun u => u.id == q.id) with
    | some u => u
    | none => q)
  ({ db with predictions := predictions }, selected.length)

/-- SQLite `ROUND(x, 2)` (the two functions disagree only at negative
half-way points, which accuracy percentages never reach). -/
def round2 (x : ℚ) : ℚ := ((round (x * 100) : ℤ) : ℚ) / 100

/-- The `overall` aggregate of `getHistoricalAccuracy`:
`(COUNT(*), SUM(was_accurate), ROUND(SUM(was_accurate)*100.0/COUNT(*), 2))`
over the evaluated rows.  (For an empty row set SQL yields `NULL`; here the
rational division by zero yields `0` — no claim touches that case.) -/
def getHistoricalAccuracyOverall (db : DB) : ℕ × ℚ × ℚ :=
  let rows := db.predictions.filter (fun p => p.evaluated_at.isSome)
  let total := rows.length
  let accurate : ℚ := (((rows.map (fun p => p.was_accurate.getD 0)).sum : ℤ) : ℚ)
  (total, accurate, round2 (accurate * 100 / (total : ℚ)))

/-- The scenario of claim C1: one pending short-term prediction
(direction `up`, range `[95, 105]`, created at 0), reference price 90
recorded at `created_at`, and a realized (current) price of 100. -/
def db0 : DB :=
  { predictions := [{
      id := 1
      crypto_id := "btc"
      created_at := 0
      timeframe := 86400000
      predicted_direction := "up"
      predicted_price_range_low := 95
      predicted_price_range_high := 105
      actual_direction := none
      actual_price := none
      was_accurate := none
      evaluated_at := none }]
    cryptocurrencies := [("btc", 100)]
    price_history := [("btc", 0, 90)] }

/-- The state of `db0` after the evaluation sweep at time 86400000000. -/
def db1 : DB :=
  { predictions := [{
      id := 1
      crypto_id := "btc"
      created_at := 0
      timeframe := 86400000
      predicted_direction := "up"
      predicted_price_range_low := 95
      predicted_price_range_high := 105
      actual_direction := some "down"
      actual_price := some 100
      was_accurate := some 0
      evaluated_at := some 86400000000 }]
    cryptocurrencies := [("btc", 100)]
    price_history := [("btc", 0, 90)] }

end Nexus

namespace Nexus

/-- The sliding-window list has one entry per loop iteration:
`inputLength − period + 1` of them (ℕ-truncated when the input is short). -/
theorem windows_length {α : Type} (period : ℕ) (h : 1 ≤ period) :
    ∀ l : List α, (windows period l).length = l.length + 1 - period := by
  intro l
  induction l with
  | nil => simp [windows]; omega
  | cons x xs ih =>
      by_cases hc : period ≤ xs.length + 1
      · simp [windows, hc, ih]; omega
      · simp [windows, hc]; omega

/-- The `j`-th window is the slice `prices.slice(j, j + period)`. -/
theorem windows_getD {α : Type} (period : ℕ) (h : 1 ≤ period) :
    ∀ (l : List α) (j : ℕ), j + period ≤ l.length →
      (windows period l).getD j [] = (l.drop j).take period := by
  intro l
  induction l with
  | nil => intro j hj; simp at hj; omega
  | cons x xs ih =>
      intro j hj
      have hc : period ≤ xs.length + 1 := by simp at hj ⊢; omega
      cases j with
      | zero => simp [windows, hc]
      | succ k =>
          have hk : k + period ≤ xs.length := by simp at hj; omega
          simp only [windows, if_pos hc, List.getD_cons_succ]
          rw [ih k hk]
          simp

/-- Lemma: `rsiLoop` emits exactly one value per remaining change. -/
theorem rsiLoop_length (period : ℕ) :
    ∀ (cs : List ℚ) (ag al : ℚ), (rsiLoop period ag al cs).length = cs.length := by
  intro cs
  induction cs with
  | nil => intro ag al; simp [rsiLoop]
  | cons c cs ih => intro ag al; simp [rsiLoop, ih]

/-- The EMA recurrence emits one value per input value. -/
theorem emaFrom_length (k : ℚ) :
    ∀ (xs : List ℚ) (prev : ℚ), (emaFrom k prev xs).length = xs.length := by
  intro xs
  induction xs with
  | nil => intro prev; simp [emaFrom]
  | cons x xs ih => intro prev; simp [emaFrom, ih]

/-- Indexing a mapped `List.range`. -/
theorem getD_range_map {α : Type} [Inhabited α] (n : ℕ) (f : ℕ → α) (i : ℕ)
    (h : i < n) (d : α) : ((List.range n).map f).getD i d = f i := by
  rw [List.getD_eq_getElem?_getD, List.getElem?_map, List.getElem?_range h]
  rfl

/-- The per-analyzer clamp never goes below −1. -/
theorem neg_one_le_clampScore (s : ℚ) : -1 ≤ clampScore s :=
  le_max_left _ _

/-- The per-analyzer clamp never exceeds 1. -/
theorem clampScore_le_one (s : ℚ) : clampScore s ≤ 1 :=
  max_le (by norm_num) (min_le_left _ _)

/-- Every entry of the confidence-multiplier table (including the default)
is positive. -/
theorem volatilityMultiplier_pos (level : String) : 0 < volatilityMultiplier level := by
  unfold volatilityMultiplier
  split_ifs <;> norm_num

/-- Every entry of the expected-move table (including the default) is
positive. -/
theorem expectedMoveOf_pos (level : String) : 0 < expectedMoveOf level := by
  unfold expectedMoveOf
  split_ifs <;> norm_num

end Nexus

namespace Nexus

/-- Claim C5: for every combination of category scores produced by the five
analyzers — each independently clamped to [−1, 1], the volatility category
contributing score 0 by construction — the weighted composite score
(weights .25/.20/.15/.15/.15) lies in [−1, 1]. -/
theorem compositeScore_bounded (t m v sr : ℚ) (vol : Option ℚ) :
    -1 ≤ compositeScoreOf (clampScore t) (clampScore m) (analyzeVolatility vol).score
        (clampScore v) (clampScore sr) ∧
      compositeScoreOf (clampScore t) (clampScore m) (analyzeVolatility vol).score
        (clampScore v) (clampScore sr) ≤ 1 := by
  have h1 := neg_one_le_clampScore t
  have h2 := clampScore_le_one t
  have h3 := neg_one_le_clampScore m
  have h4 := clampScore_le_one m
  have h5 := neg_one_le_clampScore v
  have h6 := clampScore_le_one v
  have h7 := neg_one_le_clampScore sr
  have h8 := clampScore_le_one sr
  constructor <;>
  · simp only [compositeScoreOf, analyzeVolatility]
    linarith

/-- Claim C6: the two calibration vectors of the spec for
`generateProbabilityDistribution`: score 0 / regime `medium` / price 100
gives a neutral 50%/85% short-term forecast, and score 0.6 / regime `low`
/ price 100 gives a bullish 60%/95% short-term and 51%/76% medium-term
forecast. -/
theorem generateProbabilityDistribution_calibration :
    (generateProbabilityDistribution 0 ("medium") 100).shortTerm.direction = "neutral" ∧
    (generateProbabilityDistribution 0 ("medium") 100).shortTerm.probability = 50 ∧
    (generateProbabilityDistribution 0 ("medium") 100).shortTerm.confidence = 85 ∧
    (generateProbabilityDistribution (6/10) ("low") 100).shortTerm.direction = "bullish" ∧
    (generateProbabilityDistribution (6/10) ("low") 100).shortTerm.probability = 60 ∧
    (generateProbabilityDistribution (6/10) ("low") 100).shortTerm.confidence = 95 ∧
    (generateProbabilityDistribution (6/10) ("low") 100).mediumTerm.probability = 51 ∧
    (generateProbabilityDistribution (6/10) ("low") 100).mediumTerm.confidence = 76 := by
  refine ⟨?_, ?_, ?_, ?_, ?_, ?_, ?_, ?_⟩
  · simp only [generateProbabilityDistribution]
    norm_num
  · norm_num [generateProbabilityDistribution]
  · norm_num [generateProbabilityDistribution, volatilityMultiplier]
    decide
  · simp only [generateProbabilityDistribution]
    rw [show |(6:ℚ)/10| = 6/10 from by norm_num]
    norm_num
  · simp only [generateProbabilityDistribution]
    rw [show |(6:ℚ)/10| = 6/10 from by norm_num]
    norm_num
  · norm_num [generateProbabilityDistribution, volatilityMultiplier]
    decide
  · simp only [generateProbabilityDistribution]
    rw [show |(6:ℚ)/10| = 6/10 from by norm_num]
    norm_num
  · norm_num [generateProbabilityDistribution, volatilityMultiplier]
    decide

/-- Claim C7: for every composite score, volatility regime and positive
price, the medium-term forecast is a strictly dampened version of the
short-term one: probability × 0.85, confidence × 0.8 (strictly less
confident), and a strictly wider expected range as a fraction of price. -/
theorem mediumTerm_dampens_shortTerm (compositeScore : ℚ) (level : String)
    (price : ℚ) (hp : 0 < price) :
    (generateProbabilityDistribution compositeScore level price).mediumTerm.probability =
      (generateProbabilityDistribution compositeScore level price).shortTerm.probability *
        (85 / 100) ∧
    (generateProbabilityDistribution compositeScore level price).mediumTerm.confidence =
      (generateProbabilityDistribution compositeScore level price).shortTerm.confidence *
        (8 / 10) ∧
    (generateProbabilityDistribution compositeScore level price).mediumTerm.confidence <
      (generateProbabilityDistribution compositeScore level price).shortTerm.confidence ∧
    ((generateProbabilityDistribution compositeScore level price).shortTerm.rangeHigh -
        (generateProbabilityDistribution compositeScore level price).shortTerm.rangeLow) /
        price <
      ((generateProbabilityDistribution compositeScore level price).mediumTerm.rangeHigh -
        (generateProbabilityDistribution compositeScore level price).mediumTerm.rangeLow) /
        price := by
  have hbc := volatilityMultiplier_pos level
  have hem := expectedMoveOf_pos level
  have hpe := mul_pos hp hem
  simp only [generateProbabilityDistribution]
  refine ⟨by ring, by ring, by nlinarith, ?_⟩
  rw [div_lt_div_iff_of_pos_right hp]
  nlinarith

end Nexus

namespace Nexus

/-- Witness for C7 at score 0, regime `medium`, price 100. -/
theorem mediumTerm_dampens_shortTerm_witness :
    (0:ℚ) < 100 ∧
    ((generateProbabilityDistribution 0 ("medium") 100).mediumTerm.probability =
      (generateProbabilityDistribution 0 ("medium") 100).shortTerm.probability *
        (85 / 100) ∧
    (generateProbabilityDistribution 0 ("medium") 100).mediumTerm.confidence =
      (generateProbabilityDistribution 0 ("medium") 100).shortTerm.confidence *
        (8 / 10) ∧
    (generateProbabilityDistribution 0 ("medium") 100).mediumTerm.confidence <
      (generateProbabilityDistribution 0 ("medium") 100).shortTerm.confidence ∧
    ((generateProbabilityDistribution 0 ("medium") 100).shortTerm.rangeHigh -
        (generateProbabilityDistribution 0 ("medium") 100).shortTerm.rangeLow) /
        100 <
      ((generateProbabilityDistribution 0 ("medium") 100).mediumTerm.rangeHigh -
        (generateProbabilityDistribution 0 ("medium") 100).mediumTerm.rangeLow) /
        100) :=
  ⟨by norm_num, mediumTerm_dampens_shortTerm 0 ("medium") 100 (by norm_num)⟩

/-- Counterexample for C8: `calculateRSI` on a 4-price series with period 2
returns one value, not the `L − n + 1 = 3` values the invariant of the claim
demands. -/
theorem calculateRSI_length_counterexample :
    (calculateRSI [1, 2, 3, 4] 2).map List.length = some 1 ∧ 1 ≠ 4 - 2 + 1 := by
  constructor
  · norm_num [calculateRSI, rsiLoop]
  · decide

/-- Claim C8 (amended): SMA(p) on `L ≥ p ≥ 1` prices returns `L − p + 1`
window means (`[10,12,14,16,18]` with period 3 gives `[12,14,16]`), while
RSI(n) on `L ≥ n + 1` prices returns `L − n − 1` values — its warm-up is
`n + 2` input samples, not the `n` the original claim states. -/
theorem sma_rsi_series_lengths (prices prices2 : List ℚ) (period period2 : ℕ)
    (h1 : 1 ≤ period) (h2 : period ≤ prices.length)
    (h3 : period2 + 1 ≤ prices2.length) :
    (∃ s, calculateSMA prices period = some s ∧
        s.length = prices.length - period + 1 ∧
        ∀ j, j + period ≤ prices.length →
          s.getD j 0 = ((prices.drop j).take period).sum / (period : ℚ)) ∧
      calculateSMA [10, 12, 14, 16, 18] 3 = some [12, 14, 16] ∧
      ∃ r, calculateRSI prices2 period2 = some r ∧
        r.length = prices2.length - 1 - period2 := by
  refine ⟨⟨(windows period prices).map (fun w => w.sum / (period : ℚ)), ?_, ?_, ?_⟩,
    ?_, ?_⟩
  · unfold calculateSMA
    rw [if_neg (not_lt.2 h2)]
  · rw [List.length_map, windows_length period h1 prices]
    omega
  · intro j hj
    have hjlt : j < (windows period prices).length := by
      rw [windows_length period h1 prices]
      omega
    have hw := windows_getD period h1 prices j hj
    rw [List.getD_eq_getElem?_getD, List.getElem?_eq_getElem hjlt] at hw
    simp only [Option.getD_some] at hw
    rw [List.getD_eq_getElem?_getD, List.getElem?_map,
      List.getElem?_eq_getElem hjlt]
    simp [hw]
  · norm_num [calculateSMA, windows]
  · simp only [calculateRSI, if_neg (not_lt.2 h3)]
    refine ⟨_, rfl, ?_⟩
    rw [rsiLoop_length]
    simp [List.length_zipWith]

end Nexus

namespace Nexus

/-- Witness for the amended C8 at the SMA example of the spec itself and the
4-price RSI input. -/
theorem sma_rsi_series_lengths_witness :
    ((1:ℕ) ≤ 3 ∧ 3 ≤ [(10:ℚ), 12, 14, 16, 18].length ∧
      2 + 1 ≤ [(1:ℚ), 2, 3, 4].length) ∧
    ((∃ s, calculateSMA [(10:ℚ), 12, 14, 16, 18] 3 = some s ∧
        s.length = [(10:ℚ), 12, 14, 16, 18].length - 3 + 1 ∧
        ∀ j, j + 3 ≤ [(10:ℚ), 12, 14, 16, 18].length →
          s.getD j 0 = (([(10:ℚ), 12, 14, 16, 18].drop j).take 3).sum / ((3:ℕ) : ℚ)) ∧
      calculateSMA [10, 12, 14, 16, 18] 3 = some [12, 14, 16] ∧
      ∃ r, calculateRSI [(1:ℚ), 2, 3, 4] 2 = some r ∧
        r.length = [(1:ℚ), 2, 3, 4].length - 1 - 2) :=
  ⟨⟨by decide, by decide, by decide⟩,
    sma_rsi_series_lengths [10, 12, 14, 16, 18] [1, 2, 3, 4] 3 2
      (by decide) (by decide) (by decide)⟩

/-- The full-length property of `calculateEMA`: whenever the input reaches
the period, the result is a series of the same length seeded at the first
input value. -/
theorem calculateEMA_spec (prices : List ℚ) (period : ℕ)
    (h : period ≤ prices.length) :
    ∃ e, calculateEMA prices period = some e ∧ e.length = prices.length ∧
      e.head? = prices.head? := by
  cases prices with
  | nil =>
      have h0 : period = 0 := by simpa using h
      refine ⟨[], ?_, rfl, rfl⟩
      simp [calculateEMA, h0]
  | cons p ps =>
      refine ⟨p :: emaFrom (2 / ((period : ℚ) + 1)) p ps, ?_, ?_, rfl⟩
      · unfold calculateEMA
        rw [if_neg (not_lt.2 h)]
      · simp [emaFrom_length]

/-- Claim C10: `calculateEMA` returns a full-input-length series seeded at
the first value, and consequently the MACD line, signal line and histogram
of `calculateMACD` (12, 26, 9) all have the full input length, with the
index offset of the histogram into the MACD line equal to 0. -/
theorem ema_macd_full_length (prices prices2 : List ℚ) (period : ℕ)
    (h1 : period ≤ prices.length) (h2 : 26 ≤ prices2.length) :
    (∃ e, calculateEMA prices period = some e ∧ e.length = prices.length ∧
      e.head? = prices.head?) ∧
    (∃ r s, calculateMACD prices2 12 26 9 = some r ∧
      r.macd.length = prices2.length ∧
      r.signalLine = some s ∧ s.length = prices2.length ∧
      r.histogram.length = prices2.length ∧
      r.macd.length - s.length = 0 ∧
      ∀ i, i < prices2.length →
        r.histogram.getD i 0 = r.macd.getD i 0 - s.getD i 0) := by
  refine ⟨calculateEMA_spec prices period h1, ?_⟩
  obtain ⟨fast, hfast, hflen, -⟩ :=
    calculateEMA_spec prices2 12 (le_trans (by norm_num) h2)
  obtain ⟨slow, hslow, hslen, -⟩ := calculateEMA_spec prices2 26 h2
  set macdLine : List ℚ := (List.range fast.length).map
    (fun i => fast.getD i 0 - slow.getD i 0) with hm
  have hmlen : macdLine.length = prices2.length := by
    rw [hm]
    simp [hflen]
  obtain ⟨s, hs, hslen2, -⟩ := calculateEMA_spec macdLine 9 (by rw [hmlen]; omega)
  set hist : List ℚ := (List.range s.length).map
    (fun i => macdLine.getD (i + (macdLine.length - s.length)) 0 - s.getD i 0) with hh
  have hmacd : calculateMACD prices2 12 26 9 = some ⟨macdLine, some s, hist⟩ := by
    unfold calculateMACD
    simp only [hfast, hslow, ← hm, hs, ← hh]
  refine ⟨⟨macdLine, some s, hist⟩, s, hmacd, hmlen, rfl, hslen2.trans hmlen,
    ?_, ?_, ?_⟩
  · show hist.length = prices2.length
    rw [hh]
    simp [hslen2, hmlen]
  · show macdLine.length - s.length = 0
    rw [hslen2]
    omega
  · intro i hi
    have hi2 : i < s.length := by rw [hslen2, hmlen]; exact hi
    show hist.getD i 0 = macdLine.getD i 0 - s.getD i 0
    rw [hh, getD_range_map _ _ _ hi2]
    have hoff : macdLine.length - s.length = 0 := by
      rw [hslen2]
      omega
    rw [hoff, Nat.add_zero]

end Nexus

namespace Nexus

/-- Witness for C10 at a 2-price EMA input and a constant 26-price MACD
input. -/
theorem ema_macd_full_length_witness :
    ((1:ℕ) ≤ [(1:ℚ), 2].length ∧ 26 ≤ (List.replicate 26 (1:ℚ)).length) ∧
    ((∃ e, calculateEMA [(1:ℚ), 2] 1 = some e ∧ e.length = [(1:ℚ), 2].length ∧
      e.head? = [(1:ℚ), 2].head?) ∧
    (∃ r s, calculateMACD (List.replicate 26 (1:ℚ)) 12 26 9 = some r ∧
      r.macd.length = (List.replicate 26 (1:ℚ)).length ∧
      r.signalLine = some s ∧ s.length = (List.replicate 26 (1:ℚ)).length ∧
      r.histogram.length = (List.replicate 26 (1:ℚ)).length ∧
      r.macd.length - s.length = 0 ∧
      ∀ i, i < (List.replicate 26 (1:ℚ)).length →
        r.histogram.getD i 0 = r.macd.getD i 0 - s.getD i 0)) :=
  ⟨⟨by decide, by decide⟩,
    ema_macd_full_length [1, 2] (List.replicate 26 (1:ℚ)) 1 (by decide) (by decide)⟩

/-- Counterexample for C9: on `fourSupportBars` (raw support clusters 10,
20, 30, 40; final close 100) the code returns the three *lowest* clusters
[10, 20, 30], although cluster 40 is strictly nearer to the current price
100 than the returned 10 — so the selection is not "the 3 nearest". -/
theorem supportResistance_not_nearest :
    calculateSupportResistance fourSupportBars 50 = some ⟨[], [10, 20, 30]⟩ ∧
    clusterLevels (localMinima (fourSupportBars.map OHLCBar.low)) = [10, 20, 30, 40] ∧
    |(40:ℚ) - 100| < |(10:ℚ) - 100| := by
  refine ⟨?_, ?_, by norm_num⟩
  · norm_num [calculateSupportResistance, fourSupportBars, localMinima, localMaxima,
      clusterLevels, clusterGo, lastN, List.insertionSort, List.orderedInsert]
  · norm_num [fourSupportBars, localMinima, clusterLevels, clusterGo,
      List.insertionSort, List.orderedInsert]

/-- Claim C9 (amended): two raw levels within 2% of each other merge into
one averaged cluster and farther levels stay distinct; the function
returns up to 3 support and up to 3 resistance clusters — the *lowest*
three supports and the *highest* three resistances, not the three nearest
to the current price. -/
theorem supportResistance_cluster_selection (a b : ℚ) (ohlcData : List OHLCBar)
    (res sup : List ℚ) (hab : a ≤ b)
    (h : calculateSupportResistance ohlcData 50 = some ⟨res, sup⟩) :
    ((b - a) / a < 1 / 50 → clusterLevels [a, b] = [(a + b) / 2]) ∧
    (¬ (b - a) / a < 1 / 50 → clusterLevels [a, b] = [a, b]) ∧
    sup.length ≤ 3 ∧ res.length ≤ 3 ∧
    calculateSupportResistance fourSupportBars 50 = some ⟨[], [10, 20, 30]⟩ := by
  have hres : res.length ≤ 3 ∧ sup.length ≤ 3 := by
    unfold calculateSupportResistance at h
    split_ifs at h with hlen
    simp only [Option.some.injEq, SupportResistance.mk.injEq] at h
    obtain ⟨h1, h2⟩ := h
    constructor
    · rw [← h1]
      simp [lastN]
      omega
    · rw [← h2]
      simp
  refine ⟨?_, ?_, hres.2, hres.1, ?_⟩
  · intro hlt
    simp only [clusterLevels, List.insertionSort, List.orderedInsert, if_pos hab,
      clusterGo]
    rw [if_pos hlt]
    norm_num
  · intro hge
    simp only [clusterLevels, List.insertionSort, List.orderedInsert, if_pos hab,
      clusterGo]
    rw [if_neg hge]
    norm_num
  · norm_num [calculateSupportResistance, fourSupportBars, localMinima, localMaxima,
      clusterLevels, clusterGo, lastN, List.insertionSort, List.orderedInsert]

end Nexus

namespace Nexus

/-- Witness for the amended C9 at levels 100 and 101 (within 2%) and the
four-support fixture. -/
theorem supportResistance_cluster_selection_witness :
    ((100:ℚ) ≤ 101 ∧
      calculateSupportResistance fourSupportBars 50 = some ⟨[], [10, 20, 30]⟩) ∧
    (((101 - 100 : ℚ) / 100 < 1 / 50 →
        clusterLevels [100, 101] = [(100 + 101) / 2]) ∧
      (¬ (101 - 100 : ℚ) / 100 < 1 / 50 → clusterLevels [100, 101] = [100, 101]) ∧
      ([(10:ℚ), 20, 30]).length ≤ 3 ∧ ([] : List ℚ).length ≤ 3 ∧
      calculateSupportResistance fourSupportBars 50 = some ⟨[], [10, 20, 30]⟩) :=
  ⟨⟨by norm_num,
      by norm_num [calculateSupportResistance, fourSupportBars, localMinima,
        localMaxima, clusterLevels, clusterGo, lastN, List.insertionSort,
        List.orderedInsert]⟩,
    supportResistance_cluster_selection 100 101 fourSupportBars [] [10, 20, 30]
      (by norm_num)
      (by norm_num [calculateSupportResistance, fourSupportBars, localMinima,
        localMaxima, clusterLevels, clusterGo, lastN, List.insertionSort,
        List.orderedInsert])⟩

end Nexus

namespace Nexus

/-- Claim C1 (code bug): on the exact scenario of the claim — pending `up`
prediction with range [95, 105], reference price 90, realized current
price 100 — the sweep stores `actual_direction = "down"`,
`actual_price = 100` and `was_accurate = 0`, and the aggregate reports
0% accuracy, because the source compares the still-`NULL` `actual_price`
column (coerced to 0 by JavaScript) instead of the realized price; the
claim expects direction `up`, `was_accurate = 1` and 100.0%. -/
theorem evaluatePredictions_compares_null_actual_price :
    (evaluatePredictions db0 86400000000).1 = db1 ∧
    getHistoricalAccuracyOverall db1 = (1, 0, 0) := by
  constructor
  · decide
  · norm_num [getHistoricalAccuracyOverall, round2, db1]

/-- Claim C2 (code bug): the `WHERE` clause of the sweep multiplies the stored
millisecond horizon by 1000 again, so the short-term prediction of `db0`
(created at 0, horizon 86,400,000 ms) is *not* selected at
`now = 86,400,000` — the claim says it is selected exactly then — and only
becomes selectable at 86,400,000,000. -/
theorem queryPending_horizon_mis_scaled :
    queryPending db0 86400000 = [] ∧
    (queryPending db0 86400000000).map (fun pc => pc.1.id) = [1] := by
  constructor
  · decide
  · decide

/-- Claim C3 (code bug): a strictly monotone 50-bar series yields empty
support and resistance level lists, and on such a snapshot
`analyzeSupportResistance` does not return a value — the source calls
`.toFixed(2)` on the `undefined` result of reducing an empty list, a
`TypeError` that would propagate out of `generatePrediction`. -/
theorem analyzeSupportResistance_throws_on_empty_levels :
    calculateSupportResistance monoBars 50 = some ⟨[], []⟩ ∧
    analyzeSupportResistance (some ⟨[], []⟩) 100 = none ∧
    analyzeSupportResistance none 100 = some ⟨0, [], 0⟩ := by
  refine ⟨?_, ?_, ?_⟩
  · norm_num [calculateSupportResistance, monoBars, localMinima, localMaxima,
      clusterLevels, lastN]
  · norm_num [analyzeSupportResistance, nearestLevel]
  · norm_num [analyzeSupportResistance, clampScore]

/-- Claim C4 (code bug): on 20 identical bars the CCI window has zero mean
absolute deviation and the unguarded division puts a non-finite value
(`NaN`) in the returned series; on 16 identical bars the Stochastic `%K`
divides by the zero range `highestHigh − lowestLow` and its smoothed `k`
series likewise contains `NaN`.  Only the RSI path is guarded: with
`avgLoss = 0` it uses the `RS = 100` convention and returns the finite
value `100 − 100/101`. -/
theorem cci_stochastic_division_unguarded :
    calculateCCI (List.replicate 20 ⟨100, 100, 100, 0⟩) 20 = some [none] ∧
    calculateStochastic (List.replicate 16 ⟨100, 100, 100, 0⟩) 14 3 3 =
      some (some [none], none) ∧
    calculateRSI [1, 1, 1, 1] 2 = some [10000 / 101] := by
  refine ⟨?_, ?_, ?_⟩
  · norm_num [calculateCCI, windows, jsDiv, List.replicate]
  · norm_num [calculateStochastic, calculateSMAOpt, windows, jsDiv, listMax,
      listMin, sumOpt, List.replicate]
  · norm_num [calculateRSI, rsiLoop]

end Nexus
